import Mathlib

/-!
Verification of the Aquasolar irrigation controller (`src/main/main.c`).

The program is a two-timer watering state machine on an ESP32:
a boolean `is_watering`, a `uint32_t seconds_since_last_watering`
counter, two GPIO output pins (motor driver and light), a one-shot
"watering" (duration) timer and a 1-second auto-reload "check" timer.
We embed the release configuration (`DEBUG` undefined): interval 8 h,
duration 10 min, tick period 1000 ms.
-/

/-! ## Configuration constants (lines 19-36 of main.c, release build) -/

def MOTOR_DRIVER_PIN : Nat := 14

def LIGHT_PIN : Nat := 2

def WATERING_INTERVAL_HOURS : Nat := 8

def WATERING_DURATION_MIN : Nat := 10

/-- `WATERING_DURATION_MIN * 60 * 1000` = 600000 ms. -/
def WATERING_DURATION_MS : Nat := WATERING_DURATION_MIN * 60 * 1000

/-- `WATERING_INTERVAL_HOURS * 60 * 60 * 1000` = 28800000 ms. -/
def WATERING_INTERVAL_MS : Nat := WATERING_INTERVAL_HOURS * 60 * 60 * 1000

def TIMER_PERIOD_MS : Nat := 1000

/-- Modulus of `uint32_t` arithmetic (`seconds_since_last_watering` and the
products computed from it are 32-bit unsigned). -/
def UINT32_MOD : Nat := 4294967296

/-! ## State

The global mutable state of main.c: the two scalars (lines 41-42), the
output level last written to each GPIO pin (lines 71-72, 136-137,
154-155), and whether each FreeRTOS timer is currently armed
(`watering_timer` is one-shot, `check_timer` auto-reload). -/

structure SysState where
  is_watering : Bool
  seconds_since_last_watering : Nat
  motor_level : Nat
  light_level : Nat
  duration_timer_armed : Bool
  check_timer_armed : Bool
deriving Repr, DecidableEq

/-- Observable side effects of one call: number of `ESP_LOGW` warning lines
emitted and number of `xTimerStart` calls on the duration timer. -/
structure Effects where
  warnings : Nat
  timer_arms : Nat
deriving Repr, DecidableEq

/-! ## Operations (lines 126-179 of main.c) -/

/-- `start_watering` (lines 126-142): if already watering, warn and return;
otherwise drive both pins high, set `is_watering = true`, and start the
one-shot duration timer. -/
def start_watering (s : SysState) : SysState × Effects :=
  if s.is_watering then
    (s, ⟨1, 0⟩)
  else
    ({ s with motor_level := 1, light_level := 1, is_watering := true,
              duration_timer_armed := true }, ⟨0, 1⟩)

/-- `stop_watering` (lines 144-160): if not watering, warn and return;
otherwise drive both pins low, set `is_watering = false`, and reset
`seconds_since_last_watering` to 0. -/
def stop_watering (s : SysState) : SysState × Effects :=
  if !s.is_watering then
    (s, ⟨1, 0⟩)
  else
    ({ s with motor_level := 0, light_level := 0, is_watering := false,
              seconds_since_last_watering := 0 }, ⟨0, 0⟩)

/-- `watering_timer_callback` (lines 162-166): runs when the one-shot
duration timer expires; just calls `stop_watering`. -/
def watering_timer_callback (s : SysState) : SysState × Effects :=
  stop_watering s

/-- `check_timer_callback` (lines 168-179): every second, if idle,
increment the elapsed counter (uint32) and, when
`seconds_since_last_watering * 1000 >= WATERING_INTERVAL_MS` (uint32
product), call `start_watering`. -/
def check_timer_callback (s : SysState) : SysState × Effects :=
  if !s.is_watering then
    if (((s.seconds_since_last_watering + 1) % UINT32_MOD) * 1000) % UINT32_MOD
        ≥ WATERING_INTERVAL_MS then
      start_watering
        { s with seconds_since_last_watering :=
            (s.seconds_since_last_watering + 1) % UINT32_MOD }
    else
      ({ s with seconds_since_last_watering :=
          (s.seconds_since_last_watering + 1) % UINT32_MOD }, ⟨0, 0⟩)
  else
    (s, ⟨0, 0⟩)

/-! ## Boot sequence (lines 51-124 of main.c) -/

/-- State after `app_main` has configured the GPIO pins and written both
levels low (lines 70-74): statics start at `false` / `0` (lines 41-42),
no timer armed yet. -/
def init_state : SysState :=
  { is_watering := false, seconds_since_last_watering := 0,
    motor_level := 0, light_level := 0,
    duration_timer_armed := false, check_timer_armed := false }

/-- Outcome of `app_main` (lines 51-98): whether the irrigation task was
created, how many `ESP_LOGE` lines were emitted, and the state left
behind. -/
structure BootResult where
  task_created : Bool
  error_logs : Nat
  state : SysState
deriving Repr, DecidableEq

/-- `app_main` (lines 51-98). The two booleans say whether
`xTimerCreate` returned a non-null handle for the watering timer and the
check timer. If either is null (lines 89-92), one error is logged and
`app_main` returns before `xTaskCreate` (line 95). -/
def app_main (watering_timer_ok check_timer_ok : Bool) : BootResult :=
  if watering_timer_ok && check_timer_ok then
    ⟨true, 0, init_state⟩
  else
    ⟨false, 1, init_state⟩

/-- Start of `irrigation_task` (lines 100-108): call `start_watering`
immediately, then start the auto-reload check timer. -/
def irrigation_task_start (s : SysState) : SysState :=
  { (start_watering s).1 with check_timer_armed := true }

/-- State once the irrigation task has run its prologue after a
successful boot. -/
def boot_state : SysState :=
  irrigation_task_start init_state

/-! ## Status report (lines 114-122 of main.c)

`hours_until_next = (WATERING_INTERVAL_MS - seconds_since_last_watering
* 1000) / (60 * 60 * 1000)` in uint32 arithmetic; the hourly log line
shows `WATERING_DURATION_MIN` when watering, else `hours_until_next`. -/

/-- Line 119, with uint32 wraparound on both the product and the
subtraction modelled explicitly. -/
def hours_until_next (s : SysState) : Nat :=
  ((WATERING_INTERVAL_MS + UINT32_MOD
      - (s.seconds_since_last_watering * 1000) % UINT32_MOD) % UINT32_MOD)
    / (60 * 60 * 1000)

/-- The number printed by the hourly status line (lines 120-121). -/
def status_report (s : SysState) : Nat :=
  if s.is_watering then WATERING_DURATION_MIN else hours_until_next s

/-! ## Step relation

Transitions are driven by the timer service: the auto-reload check timer
fires `check_timer_callback` whenever it is armed; the one-shot duration
timer, when armed, expires (disarming itself) and runs
`watering_timer_callback`. -/

inductive Step : SysState → SysState → Prop where
  | tick (s : SysState) (h : s.check_timer_armed = true) :
      Step s (check_timer_callback s).1
  | duration_fire (s : SysState) (h : s.duration_timer_armed = true) :
      Step s (watering_timer_callback { s with duration_timer_armed := false }).1

/-- Reachable states of the system: the post-boot state and everything the
two timer callbacks can produce from it. -/
def Reachable (s : SysState) : Prop :=
  Relation.ReflTransGen Step boot_state s

/-- Inductive invariant of the reachable states. -/
def SysInv (s : SysState) : Prop :=
  s.motor_level = (if s.is_watering then 1 else 0) ∧
  s.light_level = s.motor_level ∧
  s.duration_timer_armed = s.is_watering ∧
  s.check_timer_armed = true ∧
  s.seconds_since_last_watering ≤ 28800 ∧
  (s.is_watering = false → s.seconds_since_last_watering ≤ 28799)

/-! ## Characterization lemmas for the operations -/

theorem start_watering_of_watering {s : SysState} (h : s.is_watering = true) :
    start_watering s = (s, ⟨1, 0⟩) := by
  simp [start_watering, h]

theorem start_watering_of_idle {s : SysState} (h : s.is_watering = false) :
    start_watering s =
      ({ s with motor_level := 1, light_level := 1, is_watering := true,
                duration_timer_armed := true }, ⟨0, 1⟩) := by
  simp [start_watering, h]

theorem stop_watering_of_idle {s : SysState} (h : s.is_watering = false) :
    stop_watering s = (s, ⟨1, 0⟩) := by
  simp [stop_watering, h]

theorem stop_watering_of_watering {s : SysState} (h : s.is_watering = true) :
    stop_watering s =
      ({ s with motor_level := 0, light_level := 0, is_watering := false,
                seconds_since_last_watering := 0 }, ⟨0, 0⟩) := by
  simp [stop_watering, h]

theorem check_timer_callback_of_watering {s : SysState} (h : s.is_watering = true) :
    check_timer_callback s = (s, ⟨0, 0⟩) := by
  simp [check_timer_callback, h]

theorem check_timer_callback_idle_quiet {s : SysState} (h : s.is_watering = false)
    (hs : s.seconds_since_last_watering + 1 ≤ 28799) :
    check_timer_callback s =
      ({ s with seconds_since_last_watering := s.seconds_since_last_watering + 1 },
       ⟨0, 0⟩) := by
  have h1 : (s.seconds_since_last_watering + 1) % UINT32_MOD
      = s.seconds_since_last_watering + 1 :=
    Nat.mod_eq_of_lt (by unfold UINT32_MOD; omega)
  have h2 : ((s.seconds_since_last_watering + 1) * 1000) % UINT32_MOD
      = (s.seconds_since_last_watering + 1) * 1000 :=
    Nat.mod_eq_of_lt (by unfold UINT32_MOD; omega)
  have h3 : ¬ ((s.seconds_since_last_watering + 1) * 1000 ≥ WATERING_INTERVAL_MS) := by
    unfold WATERING_INTERVAL_MS WATERING_INTERVAL_HOURS; omega
  simp [check_timer_callback, h, h1, h2, h3]

theorem check_timer_callback_idle_start {s : SysState} (h : s.is_watering = false)
    (hs : s.seconds_since_last_watering + 1 = 28800) :
    check_timer_callback s =
      ({ s with seconds_since_last_watering := 28800, motor_level := 1,
                light_level := 1, is_watering := true,
                duration_timer_armed := true }, ⟨0, 1⟩) := by
  have h1 : (s.seconds_since_last_watering + 1) % UINT32_MOD
      = s.seconds_since_last_watering + 1 :=
    Nat.mod_eq_of_lt (by unfold UINT32_MOD; omega)
  have h2 : ((s.seconds_since_last_watering + 1) * 1000) % UINT32_MOD
      = (s.seconds_since_last_watering + 1) * 1000 :=
    Nat.mod_eq_of_lt (by unfold UINT32_MOD; omega)
  have h3 : (s.seconds_since_last_watering + 1) * 1000 ≥ WATERING_INTERVAL_MS := by
    unfold WATERING_INTERVAL_MS WATERING_INTERVAL_HOURS; omega
  simp [check_timer_callback, h, h1, h2, h3, start_watering, hs,
    UINT32_MOD, WATERING_INTERVAL_MS, WATERING_INTERVAL_HOURS]

/-! ## The invariant holds in every reachable state -/

theorem sysInv_boot : SysInv boot_state := by
  unfold SysInv; decide

theorem sysInv_step {s s' : SysState} (hs : SysInv s) (h : Step s s') : SysInv s' := by
  obtain ⟨hm, hl, hd, hc, hb, hb2⟩ := hs
  cases h with
  | tick harm =>
    by_cases hw : s.is_watering = true
    · rw [check_timer_callback_of_watering hw]
      exact ⟨hm, hl, hd, hc, hb, hb2⟩
    · have hwf : s.is_watering = false := by simpa using hw
      have hsec : s.seconds_since_last_watering ≤ 28799 := hb2 hwf
      by_cases hth : s.seconds_since_last_watering + 1 = 28800
      · rw [check_timer_callback_idle_start hwf hth]
        exact ⟨by simp [SysInv], by simp, by simp, by simpa using hc, by simp,
          by simp⟩
      · rw [check_timer_callback_idle_quiet hwf (by omega)]
        refine ⟨by simpa [hwf] using hm, by simpa using hl,
          by simpa [hwf] using hd, by simpa using hc, ?_, fun _ => ?_⟩
        · show s.seconds_since_last_watering + 1 ≤ 28800
          omega
        · show s.seconds_since_last_watering + 1 ≤ 28799
          omega
  | duration_fire harm =>
    have hw : s.is_watering = true := by rw [← hd]; exact harm
    show SysInv (stop_watering { s with duration_timer_armed := false }).1
    rw [stop_watering_of_watering (show ({ s with duration_timer_armed := false } :
      SysState).is_watering = true from hw)]
    exact ⟨by simp, by simp, by simp, by simpa using hc, by simp, fun _ => by simp⟩

theorem sysInv_reachable {s : SysState} (h : Reachable s) : SysInv s := by
  induction h with
  | refl => exact sysInv_boot
  | tail h1 h2 ih => exact sysInv_step ih h2

/-! ## Claim theorems -/

/-- C1: invoking `start_watering` while `is_watering == true` leaves the
entire state unchanged and emits exactly one warning; invoking
`stop_watering` while `is_watering == false` leaves the entire state
unchanged and emits exactly one warning. -/
theorem start_stop_idempotent (s : SysState) :
    (s.is_watering = true → start_watering s = (s, ⟨1, 0⟩)) ∧
    (s.is_watering = false → stop_watering s = (s, ⟨1, 0⟩)) :=
  ⟨fun h => start_watering_of_watering h, fun h => stop_watering_of_idle h⟩

theorem start_stop_idempotent_witness :
    start_watering ⟨true, 7, 1, 1, true, true⟩ = (⟨true, 7, 1, 1, true, true⟩, ⟨1, 0⟩) ∧
    stop_watering ⟨false, 3, 0, 0, false, true⟩ = (⟨false, 3, 0, 0, false, true⟩, ⟨1, 0⟩) :=
  ⟨(start_stop_idempotent ⟨true, 7, 1, 1, true, true⟩).1 rfl,
   (start_stop_idempotent ⟨false, 3, 0, 0, false, true⟩).2 rfl⟩

/-- C2: in every reachable state of the step relation, the motor driver
pin's output level equals 1 iff `is_watering == true`. -/
theorem actuator_mirrors_watering (s : SysState) (h : Reachable s) :
    s.motor_level = 1 ↔ s.is_watering = true := by
  obtain ⟨hm, -, -, -, -, -⟩ := sysInv_reachable h
  cases hw : s.is_watering with
  | true => simp [hw] at hm; simp [hm, hw]
  | false => simp [hw] at hm; simp [hm, hw]

theorem actuator_mirrors_watering_witness :
    boot_state.motor_level = 1 ↔ boot_state.is_watering = true :=
  actuator_mirrors_watering boot_state Relation.ReflTransGen.refl

/-- C3: in any reachable state with `is_watering == true`, invoking
`start_watering` performs no timer-arm effect (zero `xTimerStart` calls
on the duration timer) and leaves the state, in particular the armed
duration timer, unchanged — so no second duration timer is ever armed. -/
theorem no_second_duration_timer (s : SysState) (_h : Reachable s)
    (hw : s.is_watering = true) :
    (start_watering s).2.timer_arms = 0 ∧
    (start_watering s).1.duration_timer_armed = s.duration_timer_armed ∧
    (start_watering s).1 = s := by
  rw [start_watering_of_watering hw]
  exact ⟨rfl, rfl, rfl⟩

theorem no_second_duration_timer_witness :
    (start_watering boot_state).2.timer_arms = 0 ∧
    (start_watering boot_state).1.duration_timer_armed = boot_state.duration_timer_armed ∧
    (start_watering boot_state).1 = boot_state :=
  no_second_duration_timer boot_state Relation.ReflTransGen.refl (by decide)

/-- C4: a tick (`check_timer_callback`) increments
`seconds_since_last_watering` only when `is_watering == false` (it never
advances while watering), and `stop_watering` from a watering state
resets it to zero. -/
theorem elapsed_counter_policy (s : SysState) :
    (s.is_watering = true →
      (check_timer_callback s).1.seconds_since_last_watering
        = s.seconds_since_last_watering) ∧
    (s.is_watering = false →
      (check_timer_callback s).1.seconds_since_last_watering
        = (s.seconds_since_last_watering + 1) % UINT32_MOD) ∧
    (s.is_watering = true →
      (stop_watering s).1.seconds_since_last_watering = 0) := by
  refine ⟨fun h => by rw [check_timer_callback_of_watering h], fun h => ?_,
    fun h => by rw [stop_watering_of_watering h]⟩
  simp only [check_timer_callback, h, Bool.not_false, if_true]
  split
  · simp [start_watering]
  · rfl

theorem elapsed_counter_policy_witness :
    (check_timer_callback ⟨true, 42, 1, 1, true, true⟩).1.seconds_since_last_watering = 42 ∧
    (check_timer_callback ⟨false, 42, 0, 0, false, true⟩).1.seconds_since_last_watering
      = (42 + 1) % UINT32_MOD ∧
    (stop_watering ⟨true, 42, 1, 1, true, true⟩).1.seconds_since_last_watering = 0 :=
  ⟨(elapsed_counter_policy ⟨true, 42, 1, 1, true, true⟩).1 rfl,
   (elapsed_counter_policy ⟨false, 42, 0, 0, false, true⟩).2.1 rfl,
   (elapsed_counter_policy ⟨true, 42, 1, 1, true, true⟩).2.2 rfl⟩

/-- C5 counterexample: a tick from an idle state one second short of the
threshold triggers the start transition but does NOT reset the elapsed
accumulator at that point: it remains at 28800 (the reset only happens
later, in `stop_watering`). -/
theorem elapsed_not_reset_at_start :
    (check_timer_callback ⟨false, 28799, 0, 0, false, true⟩).1.is_watering = true ∧
    (check_timer_callback
        ⟨false, 28799, 0, 0, false, true⟩).1.seconds_since_last_watering = 28800 ∧
    (28800 : Nat) ≠ 0 := by
  decide

/-- C5 (amended): when the tick callback finds the accumulated elapsed
time has reached or exceeded the configured interval, a start transition
is triggered (one duration-timer arm, `is_watering` becomes true); the
elapsed accumulator is NOT reset at that point — it keeps the
incremented value and is reset to zero only when the cycle stops. -/
theorem tick_threshold_triggers_start (s : SysState)
    (hw : s.is_watering = false)
    (hth : (((s.seconds_since_last_watering + 1) % UINT32_MOD) * 1000) % UINT32_MOD
      ≥ WATERING_INTERVAL_MS) :
    (check_timer_callback s).1.is_watering = true ∧
    (check_timer_callback s).2.timer_arms = 1 ∧
    (check_timer_callback s).1.seconds_since_last_watering
      = (s.seconds_since_last_watering + 1) % UINT32_MOD ∧
    (stop_watering (check_timer_callback s).1).1.seconds_since_last_watering = 0 := by
  simp only [check_timer_callback, hw, Bool.not_false, if_true, hth, ge_iff_le,
    if_pos]
  simp [start_watering, stop_watering]

theorem tick_threshold_triggers_start_witness :
    (check_timer_callback ⟨false, 30000, 0, 0, false, true⟩).1.is_watering = true ∧
    (check_timer_callback ⟨false, 30000, 0, 0, false, true⟩).2.timer_arms = 1 ∧
    (check_timer_callback
        ⟨false, 30000, 0, 0, false, true⟩).1.seconds_since_last_watering
      = (30000 + 1) % UINT32_MOD ∧
    (stop_watering (check_timer_callback
        ⟨false, 30000, 0, 0, false, true⟩).1).1.seconds_since_last_watering = 0 :=
  tick_threshold_triggers_start ⟨false, 30000, 0, 0, false, true⟩ rfl (by decide)

/-- C7: in every reachable idle state the elapsed time never exceeds the
interval, so the uint32 report value equals the exact difference
`(WATERING_INTERVAL_MS - elapsed_ms) / 1h` (never a negative wraparound);
in every reachable watering state the report shows the configured
duration. -/
theorem status_report_correct (s : SysState) (h : Reachable s) :
    (s.is_watering = false →
      s.seconds_since_last_watering * 1000 ≤ WATERING_INTERVAL_MS ∧
      status_report s = (WATERING_INTERVAL_MS - s.seconds_since_last_watering * 1000)
        / (60 * 60 * 1000)) ∧
    (s.is_watering = true → status_report s = WATERING_DURATION_MIN) := by
  obtain ⟨-, -, -, -, -, hb2⟩ := sysInv_reachable h
  refine ⟨fun hw => ?_, fun hw => by simp [status_report, hw]⟩
  have hsec : s.seconds_since_last_watering ≤ 28799 := hb2 hw
  have hb : s.seconds_since_last_watering * 1000 ≤ WATERING_INTERVAL_MS := by
    unfold WATERING_INTERVAL_MS WATERING_INTERVAL_HOURS; omega
  refine ⟨hb, ?_⟩
  simp only [status_report, hw, Bool.false_eq_true, if_false, hours_until_next]
  have h1 : (s.seconds_since_last_watering * 1000) % UINT32_MOD
      = s.seconds_since_last_watering * 1000 :=
    Nat.mod_eq_of_lt (by unfold UINT32_MOD; omega)
  have h2 : WATERING_INTERVAL_MS + UINT32_MOD - s.seconds_since_last_watering * 1000
      = UINT32_MOD + (WATERING_INTERVAL_MS - s.seconds_since_last_watering * 1000) := by
    omega
  rw [h1, h2, Nat.add_mod_left, Nat.mod_eq_of_lt]
  unfold UINT32_MOD WATERING_INTERVAL_MS WATERING_INTERVAL_HOURS
  omega

theorem status_report_correct_witness :
    status_report boot_state = WATERING_DURATION_MIN :=
  (status_report_correct boot_state Relation.ReflTransGen.refl).2 rfl

/-- C8: at boot the state is initialized idle with elapsed counter zero
and both pins low, and the irrigation task then performs the first start
transition unconditionally: the post-boot state is watering with both
pins high, the duration timer armed (exactly one arm call), without any
interval having elapsed (counter still zero). -/
theorem boot_starts_first_cycle_immediately :
    init_state.is_watering = false ∧
    init_state.seconds_since_last_watering = 0 ∧
    init_state.motor_level = 0 ∧
    init_state.light_level = 0 ∧
    boot_state = { (start_watering init_state).1 with check_timer_armed := true } ∧
    (start_watering init_state).2.timer_arms = 1 ∧
    boot_state.is_watering = true ∧
    boot_state.seconds_since_last_watering = 0 := by
  decide

/-- C9: if creation of either timer fails at boot, `app_main` logs exactly
one error and returns without creating the irrigation task, and no
watering cycle is started. -/
theorem timer_creation_failure_aborts (wt ct : Bool) (h : wt = false ∨ ct = false) :
    (app_main wt ct).task_created = false ∧
    (app_main wt ct).error_logs = 1 ∧
    (app_main wt ct).state.is_watering = false ∧
    (app_main wt ct).state = init_state := by
  have hb : (wt && ct) = false := by rcases h with h | h <;> simp [h]
  simp [app_main, hb, init_state]

theorem timer_creation_failure_aborts_witness :
    (app_main false true).task_created = false ∧
    (app_main false true).error_logs = 1 ∧
    (app_main false true).state.is_watering = false ∧
    (app_main false true).state = init_state :=
  timer_creation_failure_aborts false true (Or.inl rfl)

/-- C10: in every reachable state the light pin's output level equals the
motor driver pin's output level. -/
theorem light_mirrors_motor (s : SysState) (h : Reachable s) :
    s.light_level = s.motor_level :=
  (sysInv_reachable h).2.1

theorem light_mirrors_motor_witness :
    boot_state.light_level = boot_state.motor_level :=
  light_mirrors_motor boot_state Relation.ReflTransGen.refl

/-! ## Timed execution model (for inter-cycle spacing)

A deterministic second-by-second run of the whole system from a
successful boot. Time is counted in seconds (the check timer's period is
1000 ms). The one-shot duration timer is a countdown in seconds: it is
armed for `WATERING_DURATION_MS / TIMER_PERIOD_MS` = 600 s by
`start_watering`, and expires (running `watering_timer_callback`) when
the countdown runs out. When the expiry falls in the same second as a
periodic tick, the tick's callback is processed first; the choice only
shifts boundaries by one tick and does not affect which claims hold. -/

/-- Duration of a watering cycle in check-timer periods (600). -/
def DURATION_SECONDS : Nat := WATERING_DURATION_MS / TIMER_PERIOD_MS

structure TState where
  is_watering : Bool
  seconds_since_last_watering : Nat
  duration_countdown : Option Nat
deriving Repr, DecidableEq

namespace Timed

/-- Effect of `check_timer_callback` on the timed state (same logic as
`check_timer_callback`; starting arms the duration countdown). -/
def tick (t : TState) : TState :=
  if !t.is_watering then
    if (((t.seconds_since_last_watering + 1) % UINT32_MOD) * 1000) % UINT32_MOD
        ≥ WATERING_INTERVAL_MS then
      { is_watering := true,
        seconds_since_last_watering := (t.seconds_since_last_watering + 1) % UINT32_MOD,
        duration_countdown := some DURATION_SECONDS }
    else
      { t with seconds_since_last_watering :=
          (t.seconds_since_last_watering + 1) % UINT32_MOD }
  else t

/-- Effect of the one-shot duration timer expiring: it disarms itself and
runs `watering_timer_callback`, i.e. `stop_watering`. -/
def fire (t : TState) : TState :=
  if t.is_watering then
    { is_watering := false, seconds_since_last_watering := 0,
      duration_countdown := none }
  else
    { t with duration_countdown := none }

/-- One second of system time: the armed duration countdown loses one
second; the periodic tick fires; if the countdown ran out this second the
duration timer expires. -/
def second_step (t : TState) : TState :=
  match t.duration_countdown with
  | some (d + 2) => tick { t with duration_countdown := some (d + 1) }
  | some _ => fire (tick { t with duration_countdown := none })
  | none => tick t

/-- The run from a successful boot: at time 0 `irrigation_task` has
called `start_watering` (cycle active, counter 0, duration timer armed
for 600 s) and started the check timer. -/
def runT : Nat → TState
  | 0 => { is_watering := true, seconds_since_last_watering := 0,
           duration_countdown := some DURATION_SECONDS }
  | n + 1 => second_step (runT n)

/-- A start transition happens at second `n`: at boot (n = 0), or the
system goes from idle to watering during second `n`. -/
def startsAt : Nat → Prop
  | 0 => True
  | n + 1 => (runT n).is_watering = false ∧ (runT (n + 1)).is_watering = true

theorem runT_succ (n : Nat) : runT (n + 1) = second_step (runT n) := rfl

theorem runT_add (m n : Nat) : runT (m + n) = second_step^[n] (runT m) := by
  induction n with
  | zero => rfl
  | succ n ih =>
    rw [Function.iterate_succ_apply']
    exact congrArg second_step ih

theorem iterate_watering (sec : Nat) {n d : Nat} (h : n < d) :
    second_step^[n] ⟨true, sec, some d⟩ = ⟨true, sec, some (d - n)⟩ := by
  induction n generalizing d with
  | zero => simp
  | succ n ih =>
    obtain ⟨e, rfl⟩ : ∃ e, d = e + 2 := ⟨d - 2, by omega⟩
    rw [Function.iterate_succ_apply]
    have hstep : second_step ⟨true, sec, some (e + 2)⟩ = ⟨true, sec, some (e + 1)⟩ := by
      simp [second_step, tick]
    rw [hstep, ih (by omega), show e + 1 - n = e + 2 - (n + 1) from by omega]

theorem iterate_watering_stop (sec : Nat) {d : Nat} (h : 1 ≤ d) :
    second_step^[d] ⟨true, sec, some d⟩ = ⟨false, 0, none⟩ := by
  obtain ⟨e, rfl⟩ : ∃ e, d = e + 1 := ⟨d - 1, by omega⟩
  rw [Function.iterate_succ_apply']
  rw [iterate_watering sec (by omega)]
  have h1 : e + 1 - e = 1 := by omega
  rw [h1]
  simp [second_step, tick, fire]

theorem iterate_idle {s0 j : Nat} (h : s0 + j ≤ 28799) :
    second_step^[j] ⟨false, s0, none⟩ = ⟨false, s0 + j, none⟩ := by
  induction j generalizing s0 with
  | zero => simp
  | succ j ih =>
    rw [Function.iterate_succ_apply]
    have h1 : (s0 + 1) % UINT32_MOD = s0 + 1 :=
      Nat.mod_eq_of_lt (by unfold UINT32_MOD; omega)
    have h2 : ((s0 + 1) * 1000) % UINT32_MOD = (s0 + 1) * 1000 :=
      Nat.mod_eq_of_lt (by unfold UINT32_MOD; omega)
    have h3 : ¬ ((s0 + 1) * 1000 ≥ WATERING_INTERVAL_MS) := by
      unfold WATERING_INTERVAL_MS WATERING_INTERVAL_HOURS; omega
    have hstep : second_step ⟨false, s0, none⟩ = ⟨false, s0 + 1, none⟩ := by
      simp [second_step, tick, h1, h2, h3]
    rw [hstep, ih (by omega), show s0 + 1 + j = s0 + (j + 1) from by omega]

theorem idle_to_start :
    second_step ⟨false, 28799, none⟩ = ⟨true, 28800, some 600⟩ := by
  simp [second_step, tick, UINT32_MOD, WATERING_INTERVAL_MS, WATERING_INTERVAL_HOURS,
    DURATION_SECONDS, WATERING_DURATION_MS, WATERING_DURATION_MIN, TIMER_PERIOD_MS]

theorem runT_zero_eq : runT 0 = ⟨true, 0, some 600⟩ := rfl

theorem runT_watering_phase1 {n : Nat} (h : n < 600) :
    runT n = ⟨true, 0, some (600 - n)⟩ := by
  have := runT_add 0 n
  rw [Nat.zero_add] at this
  rw [this, runT_zero_eq, iterate_watering 0 h]

theorem runT_600 : runT 600 = ⟨false, 0, none⟩ := by
  have := runT_add 0 600
  rw [Nat.zero_add] at this
  rw [this, runT_zero_eq, iterate_watering_stop 0 (by omega)]

theorem runT_idle_phase {j : Nat} (h : j ≤ 28799) :
    runT (600 + j) = ⟨false, j, none⟩ := by
  rw [runT_add 600 j, runT_600, iterate_idle (by omega), Nat.zero_add]

theorem runT_29400 : runT 29400 = ⟨true, 28800, some 600⟩ := by
  rw [show (29400 : Nat) = (600 + 28799) + 1 from by norm_num, runT_succ,
    runT_idle_phase (by omega), idle_to_start]

theorem runT_watering_phase2 {n : Nat} (h : n < 600) :
    runT (29400 + n) = ⟨true, 28800, some (600 - n)⟩ := by
  rw [runT_add 29400 n, runT_29400, iterate_watering 28800 h]

theorem runT_30000 : runT 30000 = ⟨false, 0, none⟩ := by
  rw [show (30000 : Nat) = 29400 + 600 from by norm_num, runT_add 29400 600,
    runT_29400, iterate_watering_stop 28800 (by omega)]

theorem runT_periodic (j : Nat) : runT (29400 + (600 + j)) = runT (600 + j) := by
  induction j with
  | zero =>
    rw [show 29400 + (600 + 0) = 30000 from by norm_num, runT_30000,
      show 600 + 0 = 600 from rfl, runT_600]
  | succ j ih =>
    rw [show 29400 + (600 + (j + 1)) = (29400 + (600 + j)) + 1 from by omega,
      runT_succ, ih, show 600 + (j + 1) = (600 + j) + 1 from by omega, runT_succ]

theorem runT_watering_iff (n : Nat) :
    (runT n).is_watering = true ↔ n % 29400 < 600 := by
  induction n using Nat.strong_induction_on with
  | _ n ih =>
    rcases Nat.lt_or_ge n 600 with h | h
    · rw [runT_watering_phase1 h]
      simp only [true_iff]
      omega
    · rcases Nat.lt_or_ge n 29400 with h2 | h2
      · obtain ⟨j, rfl⟩ : ∃ j, n = 600 + j := ⟨n - 600, by omega⟩
        rw [runT_idle_phase (by omega)]
        constructor
        · intro hc
          exact absurd hc (by simp)
        · intro hc
          omega
      · rcases Nat.lt_or_ge n 30000 with h3 | h3
        · obtain ⟨k, rfl⟩ : ∃ k, n = 29400 + k := ⟨n - 29400, by omega⟩
          rw [runT_watering_phase2 (by omega)]
          simp only [true_iff]
          omega
        · obtain ⟨j, rfl⟩ : ∃ j, n = 29400 + (600 + j) := ⟨n - 30000, by omega⟩
          rw [runT_periodic j, ih (600 + j) (by omega)]
          omega

theorem startsAt_iff (m : Nat) : startsAt m ↔ m % 29400 = 0 := by
  cases m with
  | zero => simp [startsAt]
  | succ k =>
    show ((runT k).is_watering = false ∧ (runT (k + 1)).is_watering = true) ↔ _
    have hk := runT_watering_iff k
    have hk1 := runT_watering_iff (k + 1)
    constructor
    · rintro ⟨h0, h1⟩
      have ha : ¬ (k % 29400 < 600) := fun hc => by
        rw [← hk] at hc
        rw [h0] at hc
        exact Bool.false_ne_true hc
      have hb : (k + 1) % 29400 < 600 := hk1.mp h1
      omega
    · intro h
      have ha : ¬ (k % 29400 < 600) := by omega
      have hb : (k + 1) % 29400 < 600 := by omega
      refine ⟨?_, hk1.mpr hb⟩
      cases hw : (runT k).is_watering with
      | false => rfl
      | true => exact absurd (hk.mp hw) ha

end Timed

/-- There is no start transition strictly between seconds `a` and `b` of
the timed run. -/
def no_start_in (a b : Nat) : Prop :=
  ∀ m, a < m → m < b → ¬ Timed.startsAt m

/-- C6 counterexample: the first start is at boot (second 0), the next
start of the timed run is at second 29400 with no start in between, so
the spacing between consecutive start instants is 29400 s, not the
configured interval `WATERING_INTERVAL_MS / TIMER_PERIOD_MS` = 28800 s:
the elapsed counter is reset at cycle stop and frozen while watering, so
each cycle's duration is added to the spacing. -/
theorem consecutive_starts_not_interval :
    Timed.startsAt 0 ∧ Timed.startsAt 29400 ∧ no_start_in 0 29400 ∧
    WATERING_INTERVAL_MS / TIMER_PERIOD_MS = 28800 ∧ (29400 : Nat) ≠ 28800 := by
  refine ⟨(Timed.startsAt_iff 0).mpr (by norm_num),
    (Timed.startsAt_iff 29400).mpr (by norm_num),
    fun m h1 h2 hs => ?_, rfl, by norm_num⟩
  have := (Timed.startsAt_iff m).mp hs
  omega

/-- C6 (amended): under normal operation a start transition of the timed
run occurs exactly at the multiples of the configured interval PLUS the
watering duration (29400 s), so the time between consecutive start
instants equals interval + duration, not the interval alone. -/
theorem consecutive_starts_spacing (m : Nat) :
    Timed.startsAt m ↔
      m % (WATERING_INTERVAL_MS / TIMER_PERIOD_MS
            + WATERING_DURATION_MS / TIMER_PERIOD_MS) = 0 := by
  rw [show WATERING_INTERVAL_MS / TIMER_PERIOD_MS
      + WATERING_DURATION_MS / TIMER_PERIOD_MS = 29400 from rfl]
  exact Timed.startsAt_iff m

theorem consecutive_starts_spacing_witness : Timed.startsAt 58800 :=
  (consecutive_starts_spacing 58800).mpr (by decide)
